import Mathlib

/-!
Shallow embedding of `src/google_drive_analysis/drive_analysis.py`.

The script loads a tabular dataset (CSV or Excel) into a pandas DataFrame,
computes descriptive statistics for one column, and writes a text summary,
a histogram image and a box-plot image into an output directory.

Modelling choices:
* Cell values are `Option ℚ` (`none` models a missing value / NaN).
* A DataFrame is an association list of named columns.
* pandas library calls made by the script (`Series.describe`, `Series.mode`,
  `Series.iloc`, `read_csv`, `read_excel`) are embedded according to their
  documented semantics, since the script's behaviour is determined by them:
  - `Series.mode()` drops missing values, and returns the values of maximal
    frequency in ascending sorted order;
  - `Series.describe()` computes count/mean/std/min/25%/50%/75%/max over the
    non-missing values;
  - `read_excel(path, sheet_name=None)` reads every worksheet and returns a
    mapping from sheet names to frames; with a sheet name it returns the
    single matching frame;
  - `.iloc[0]` raises an IndexError on an empty series (modelled as `Except`).
* File-system effects (mkdir, file writes) are explicit state passing over a
  `FileSystem` record; image rendering is abstracted to writing a non-empty
  placeholder whose bytes are not modelled (the spec leaves image content
  uncharacterised).
-/

namespace DriveAnalysis

/-- A cell of the table: a numeric value, or `none` for a missing entry (NaN). -/
abbrev Cell := Option ℚ

/-- A column is the ordered sequence of its cells. -/
abbrev Column := List Cell

/-- A DataFrame: ordered sequence of named columns (`df[c]` is lookup by name). -/
abbrev DataFrame := List (String × Column)

/-- Column selection `df[column]`: first column with the given name, if any. -/
def getColumn (df : DataFrame) (column : String) : Option Column :=
  df.lookup column

/-- pandas drops missing values (NaN) before statistics: keep the `some` cells. -/
def dropna (xs : Column) : List ℚ :=
  xs.filterMap id

/-- Errors surfaced by the analyser.  `keyError` is the ColumnNotFound kind
(Python raises `KeyError` on `df[column]` for an absent column); `indexError`
models `.iloc[0]` on an empty series. -/
inductive AnalysisError where
  | keyError (column : String)
  | indexError
  deriving DecidableEq, Repr

instance {ε α : Type} [DecidableEq ε] [DecidableEq α] : DecidableEq (Except ε α) :=
  fun a b =>
    match a, b with
    | Except.ok x, Except.ok y =>
      decidable_of_iff (x = y) ⟨fun h => h ▸ rfl, fun h => by injection h⟩
    | Except.error e, Except.error f =>
      decidable_of_iff (e = f) ⟨fun h => h ▸ rfl, fun h => by injection h⟩
    | Except.ok _, Except.error _ => isFalse fun h => Except.noConfusion h
    | Except.error _, Except.ok _ => isFalse fun h => Except.noConfusion h

/-- The maximal frequency among the column's non-missing values. -/
def maxFreq (xs : Column) : ℕ :=
  (((dropna xs).dedup).map fun v => (dropna xs).count v).foldr max 0

/-- Embedding of `Series.mode()`: the non-missing values of maximal frequency,
in ascending sorted order (pandas documents the result as sorted). -/
def seriesMode (xs : Column) : List ℚ :=
  ((dropna xs).dedup.filter fun v => (dropna xs).count v = maxFreq xs).insertionSort
    (· ≤ ·)

/-- Embedding of `series.iloc[i]`: positional access, IndexError out of range. -/
def iloc (l : List ℚ) (i : ℕ) : Except AnalysisError ℚ :=
  match l.get? i with
  | some v => Except.ok v
  | none => Except.error AnalysisError.indexError

/-- Line 69 of the script:
`mode = df[column].mode().iloc[0] if not df[column].mode().empty else None`. -/
def computeMode (xs : Column) : Except AnalysisError (Option ℚ) :=
  if (seriesMode xs).isEmpty then Except.ok none
  else (iloc (seriesMode xs) 0).map some

/-- The fixed-shape record produced by `Series.describe()` on a numeric column.
Statistics that pandas reports as NaN (mean/std/min/quartiles/max of an empty
column, std of a singleton) are `none`.  The `std` field is the sample
standard deviation represented by its square, the sample variance: the square
root of a rational is irrational in general, and no property below depends on
the magnitude of `std`, only on which values it is computed from. -/
structure Summary where
  count : ℕ
  mean : Option ℚ
  std : Option ℚ
  min : Option ℚ
  q25 : Option ℚ
  q50 : Option ℚ
  q75 : Option ℚ
  max : Option ℚ
  deriving DecidableEq, Repr

/-- Linear-interpolation quantile of a list (pandas' default for `describe`):
on the ascending sort, position `h = q * (n - 1)`, interpolating between the
two adjacent order statistics. -/
def quantile (vs : List ℚ) (q : ℚ) : Option ℚ :=
  match vs.insertionSort (· ≤ ·) with
  | [] => none
  | a :: rest =>
    let s := a :: rest
    let n := s.length
    let h : ℚ := q * ((n : ℚ) - 1)
    let i : ℕ := h.floor.toNat
    let lo := s.getD i a
    let hi := s.getD (Nat.min (i + 1) (n - 1)) a
    some (lo + (h - (i : ℚ)) * (hi - lo))

/-- Sample mean of a list of values (NaN, i.e. `none`, when empty). -/
def sampleMean (vs : List ℚ) : Option ℚ :=
  if vs.length = 0 then none else some (vs.sum / (vs.length : ℚ))

/-- Sample variance with ddof = 1 (the square of pandas' `std`); NaN (`none`)
when fewer than two values. -/
def sampleVar (vs : List ℚ) : Option ℚ :=
  if vs.length < 2 then none
  else
    let n : ℚ := vs.length
    let m : ℚ := vs.sum / n
    some ((vs.map fun x => (x - m) ^ 2).sum / (n - 1))

/-- Embedding of `Series.describe()` over the non-missing values of a column. -/
def describeVals (vs : List ℚ) : Summary :=
  { count := vs.length
    mean := sampleMean vs
    std := sampleVar vs
    min := vs.min?
    q25 := quantile vs (1 / 4)
    q50 := quantile vs (1 / 2)
    q75 := quantile vs (3 / 4)
    max := vs.max? }

/-- Line 68 of the script: `summary = df[column].describe()`.  pandas computes
every statistic over the non-missing values only. -/
def describe (xs : Column) : Summary :=
  describeVals (dropna xs)

/-! ### Rendering the text summary

The script writes, in order: the literal header line, `summary.to_string()`
(one label/value line per statistic, newline-separated, no trailing newline),
a blank line, and the mode line.  Decimal rendering of a value is embedded by
an explicit digit formatter; the exact rounding of pandas' float formatter is
below the granularity of the model, but every rendered value is a
newline-free string, which is what the line structure of the artifact
depends on. -/

/-- The decimal digit character for `d % 10`. -/
def digitChar (d : ℕ) : Char :=
  ("0123456789").data.getD (d % 10) '0'

/-- Decimal digits of `n`, most significant first (`fuel` bounds recursion). -/
def natDigitsAux : ℕ → ℕ → List Char
  | 0, _ => []
  | fuel + 1, n =>
    if n < 10 then [digitChar n]
    else natDigitsAux fuel (n / 10) ++ [digitChar (n % 10)]

/-- Decimal rendering of a natural number. -/
def natDecimal (n : ℕ) : String :=
  String.mk (natDigitsAux (n + 1) n)

/-- Left-pad a digit string with zeros to width 6. -/
def padSix (s : List Char) : List Char :=
  List.replicate (6 - s.length) '0' ++ s

/-- Fixed-point decimal rendering of a rational with six fractional digits,
mirroring the float rendering used by `Series.to_string` (for example
`3.000000`). -/
def fmtRat (q : ℚ) : String :=
  let a := |q|
  let ip := a.floor.toNat
  let fp := ((a - a.floor) * 1000000).floor.toNat
  (if q < 0 then ("-") else ("")) ++ natDecimal ip ++ (".") ++
    String.mk (padSix (natDigitsAux (fp + 1) fp))

/-- A statistic value as rendered: `NaN` for a missing statistic. -/
def fmtStat : Option ℚ → String
  | none => "NaN"
  | some q => fmtRat q

/-- Python's `str` of the mode variable: `None` when absent, else the value. -/
def fmtMode : Option ℚ → String
  | none => "None"
  | some q => fmtRat q

/-- One line of `summary.to_string()`: the label, column padding, the value. -/
def statLine (label value : String) : String :=
  label ++ ("    ") ++ value

/-- The eight label/value lines of `summary.to_string()` for a numeric
`describe`, in pandas' fixed order. -/
def statLines (s : Summary) : List String :=
  [statLine ("count") (fmtRat (s.count : ℚ)),
   statLine ("mean") (fmtStat s.mean),
   statLine ("std") (fmtStat s.std),
   statLine ("min") (fmtStat s.min),
   statLine ("25%") (fmtStat s.q25),
   statLine ("50%") (fmtStat s.q50),
   statLine ("75%") (fmtStat s.q75),
   statLine ("max") (fmtStat s.max)]

/-- Newline-join, with no trailing newline (as `Series.to_string` renders). -/
def joinLines : List String → String
  | [] => ""
  | [l] => l
  | l :: l2 :: ls => l ++ ("\n") ++ joinLines (l2 :: ls)

/-- Embedding of `summary.to_string()`. -/
def summaryToString (s : Summary) : String :=
  joinLines (statLines s)

/-- Lines 72-76 of the script: the full content of
`summary_statistics.txt`, the concatenation of the four `fh.write` calls. -/
def summaryFileContent (s : Summary) (mode : Option ℚ) : String :=
  ("Summary statistics\n") ++ summaryToString s ++ ("\n\n") ++
    (("Mode: ") ++ fmtMode mode ++ ("\n"))

/-! ### The file system and the analyser's side effects -/

/-- The file-system state the analyser mutates: which directory paths exist
and the content of each file path.  Paths are opaque strings; the creation of
intermediate parent directories is below the granularity of this model. -/
structure FileSystem where
  dirs : String → Bool
  files : String → Option String

/-- Embedding of `output_dir.mkdir(parents=True, exist_ok=True)`: idempotent
directory creation. -/
def mkdirAll (fs : FileSystem) (d : String) : FileSystem :=
  { fs with dirs := fun p => p == d || fs.dirs p }

/-- Writing a file: creates it, or overwrites whatever was at that path. -/
def writeFile (fs : FileSystem) (path content : String) : FileSystem :=
  { fs with files := fun p => if p = path then some content else fs.files p }

/-- Abstraction of `plt.savefig` for the histogram (bins=20, titled with the
column name): matplotlib's image bytes are not modelled, only that a
non-empty image file is written. -/
def histogramPng (column : String) : String :=
  ("PNG: Histogram of ") ++ column ++ (", bins=20")

/-- Abstraction of `plt.savefig` for the single-column box plot. -/
def boxplotPng (column : String) : String :=
  ("PNG: Box plot of ") ++ column

/-- Embedding of `analyse_dataframe(df, column, output_dir)` (lines 53-97):
create the output directory, select the column (KeyError when absent),
compute the summary and the mode, then write the three artifacts.  The
returned state is the file system after the call, paired with the outcome. -/
def analyse_dataframe (df : DataFrame) (column : String) (output_dir : String)
    (fs : FileSystem) : FileSystem × Except AnalysisError Unit :=
  let fs1 := mkdirAll fs output_dir
  match getColumn df column with
  | none => (fs1, Except.error (AnalysisError.keyError column))
  | some col =>
    let summary := describe col
    match computeMode col with
    | Except.error e => (fs1, Except.error e)
    | Except.ok mode =>
      let summary_path := output_dir ++ ("/summary_statistics.txt")
      let fs2 := writeFile fs1 summary_path (summaryFileContent summary mode)
      let fs3 := writeFile fs2 (output_dir ++ ("/histogram.png")) (histogramPng column)
      let fs4 := writeFile fs3 (output_dir ++ ("/boxplot.png")) (boxplotPng column)
      (fs4, Except.ok ())

/-! ### The loader -/

/-- Python's `str.lower`. -/
def strLower (s : String) : String :=
  String.mk (s.data.map Char.toLower)

/-- The dataset file the loader reads: the path's extension, the workbook
content seen when it is parsed as a spreadsheet (named sheets), and the
table seen when it is parsed as comma-separated text. -/
structure DataFile where
  suffix : String
  sheets : List (String × DataFrame)
  csv : DataFrame

/-- What `pd.read_excel` returns: a single frame, or (for `sheet_name=None`)
the mapping from every sheet name to its frame. -/
inductive LoadResult where
  | single (df : DataFrame)
  | allSheets (m : List (String × DataFrame))
  deriving DecidableEq, Repr

/-- Loader failure: the requested sheet does not exist. -/
inductive LoadError where
  | sheetNotFound (s : String)
  deriving DecidableEq, Repr

/-- Embedding of `pd.read_excel(data_path, sheet_name=sheet_name)`:
`sheet_name=None` reads every worksheet and returns a mapping of frames;
a sheet name selects the single matching frame. -/
def read_excel (file : DataFile) (sheet_name : Option String) :
    Except LoadError LoadResult :=
  match sheet_name with
  | none => Except.ok (LoadResult.allSheets file.sheets)
  | some s =>
    match file.sheets.lookup s with
    | some df => Except.ok (LoadResult.single df)
    | none => Except.error (LoadError.sheetNotFound s)

/-- Embedding of `pd.read_csv(data_path)`: the file parsed as
comma-separated text; takes no sheet argument. -/
def read_csv (file : DataFile) : DataFrame :=
  file.csv

/-- Embedding of `load_dataframe(data_path, sheet_name)` (lines 37-50):
spreadsheet extensions go through `read_excel` with the given sheet
argument, everything else through `read_csv`. -/
def load_dataframe (file : DataFile) (sheet_name : Option String) :
    Except LoadError LoadResult :=
  if strLower file.suffix = (".xls") ∨ strLower file.suffix = (".xlsx") then
    read_excel file sheet_name
  else
    Except.ok (LoadResult.single (read_csv file))

/-! ### Observing a text file as a list of lines -/

/-- Split a character sequence at every newline. -/
def splitNl : List Char → List (List Char)
  | [] => [[]]
  | c :: rest =>
    if c = '\n' then [] :: splitNl rest
    else
      match splitNl rest with
      | [] => [[c]]
      | l :: ls => (c :: l) :: ls

/-- The lines of a text file: chunks between newlines, a trailing newline
ending the last line rather than opening an empty one (Python's
`str.splitlines` convention). -/
def fileLines (s : String) : List String :=
  let chunks := splitNl s.data
  (if chunks.getLast? = some ([] : List Char) then chunks.dropLast else chunks).map
    fun l => String.mk l

/-! ### Definitions for stating and witnessing the claims -/

/-- Modelled from the spec's words, for comparison with `computeMode`: "mode
selection picks the single most frequent non-missing value, using the
first-encountered value as tie-break when frequencies are equal".  The first
value in the column's order whose frequency is maximal. -/
def firstEncounteredMode (xs : Column) : Option ℚ :=
  (dropna xs).find? fun v => (dropna xs).count v = maxFreq xs

/-- A file system with no directories and no files. -/
def emptyFS : FileSystem :=
  { dirs := fun _ => false, files := fun _ => none }

/-- A two-sheet spreadsheet file (extension `.xlsx`), with distinct sheets. -/
def twoSheetFile : DataFile :=
  { suffix := ".xlsx"
    sheets := [("Sheet1", [("a", [some 1])]), ("Sheet2", [("b", [some 2])])]
    csv := [] }

/-- A comma-separated file (extension `.csv`). -/
def csvFile : DataFile :=
  { suffix := ".csv"
    sheets := []
    csv := [("a", [some 1]), ("b", [some 2])] }

/-! ### Helper lemmas -/

theorem splitNl_ne_nil (cs : List Char) : splitNl cs ≠ [] := by
  match cs with
  | [] => simp [splitNl]
  | c :: rest =>
    simp only [splitNl]
    split
    · simp
    · split
      · simp
      · simp

theorem splitNl_of_no_nl (cs : List Char) (h : '\n' ∉ cs) : splitNl cs = [cs] := by
  induction cs with
  | nil => rfl
  | cons c rest ih =>
    have hc : ¬ c = '\n' := fun hcn => h (hcn ▸ List.mem_cons_self c rest)
    have hr : '\n' ∉ rest := fun hm => h (List.mem_cons_of_mem c hm)
    simp only [splitNl, if_neg hc, ih hr]

theorem splitNl_append_nl (a b : List Char) (h : '\n' ∉ a) :
    splitNl (a ++ '\n' :: b) = a :: splitNl b := by
  induction a with
  | nil => simp [splitNl]
  | cons c rest ih =>
    have hc : ¬ c = '\n' := fun hcn => h (hcn ▸ List.mem_cons_self c rest)
    have hr : '\n' ∉ rest := fun hm => h (List.mem_cons_of_mem c hm)
    have ih2 := ih hr
    simp only [List.cons_append, splitNl, if_neg hc, List.append_eq] at *
    rw [ih2]

theorem digitChar_ne_nl (d : ℕ) : digitChar d ≠ '\n' := by
  have hlt : d % 10 < 10 := Nat.mod_lt d (by norm_num)
  unfold digitChar
  set r := d % 10 with hr
  interval_cases r <;> decide

theorem natDigitsAux_no_nl (fuel n : ℕ) : '\n' ∉ natDigitsAux fuel n := by
  induction fuel generalizing n with
  | zero => simp [natDigitsAux]
  | succ f ih =>
    simp only [natDigitsAux]
    split
    · intro hm
      exact digitChar_ne_nl n (List.mem_singleton.mp hm).symm
    · intro hm
      rcases List.mem_append.mp hm with hm | hm
      · exact ih (n / 10) hm
      · exact digitChar_ne_nl (n % 10) (List.mem_singleton.mp hm).symm

theorem padSix_no_nl (s : List Char) (h : '\n' ∉ s) : '\n' ∉ padSix s := by
  intro hm
  rcases List.mem_append.mp hm with hm | hm
  · have := List.eq_of_mem_replicate hm
    exact absurd this (by decide)
  · exact h hm

theorem fmtRat_no_nl (q : ℚ) : '\n' ∉ (fmtRat q).data := by
  unfold fmtRat
  intro hm
  simp only [String.data_append] at hm
  rcases List.mem_append.mp hm with hm | hm
  · rcases List.mem_append.mp hm with hm | hm
    · rcases List.mem_append.mp hm with hm | hm
      · rcases em (q < 0) with hq | hq
        · rw [if_pos hq] at hm; exact absurd hm (by decide)
        · rw [if_neg hq] at hm; exact absurd hm (by decide)
      · exact natDigitsAux_no_nl _ _ hm
    · exact absurd hm (by decide)
  · exact padSix_no_nl _ (natDigitsAux_no_nl _ _) hm

theorem fmtStat_no_nl (v : Option ℚ) : '\n' ∉ (fmtStat v).data := by
  cases v with
  | none => decide
  | some q => exact fmtRat_no_nl q

theorem fmtMode_no_nl (v : Option ℚ) : '\n' ∉ (fmtMode v).data := by
  cases v with
  | none => decide
  | some q => exact fmtRat_no_nl q

theorem statLine_no_nl (label value : String) (hl : '\n' ∉ label.data)
    (hv : '\n' ∉ value.data) : '\n' ∉ (statLine label value).data := by
  unfold statLine
  intro hm
  simp only [String.data_append] at hm
  rcases List.mem_append.mp hm with hm | hm
  · rcases List.mem_append.mp hm with hm | hm
    · exact hl hm
    · exact absurd hm (by decide)
  · exact hv hm

theorem splitNl_joinLines_append (ls : List String) (rest : List Char)
    (hne : ls ≠ []) (hnl : ∀ l ∈ ls, '\n' ∉ l.data) :
    splitNl ((joinLines ls).data ++ '\n' :: rest) =
      ls.map String.data ++ splitNl rest := by
  induction ls with
  | nil => cases hne rfl
  | cons l ls ih =>
    cases ls with
    | nil =>
      simp only [joinLines, List.map]
      rw [splitNl_append_nl _ _ (hnl l (List.mem_cons_self _ _))]
      rfl
    | cons l2 ls2 =>
      have hdata : (joinLines (l :: l2 :: ls2)).data
          = l.data ++ '\n' :: (joinLines (l2 :: ls2)).data := by
        simp [joinLines, String.data_append]
      rw [hdata, List.append_assoc]
      simp only [List.cons_append]
      rw [splitNl_append_nl _ _ (hnl l (List.mem_cons_self _ _))]
      rw [ih (by simp) fun x hx => hnl x (List.mem_cons_of_mem l hx)]
      rfl

theorem statLines_no_nl (s : Summary) :
    ∀ l ∈ statLines s, '\n' ∉ l.data := by
  intro l hl
  simp only [statLines, List.mem_cons, List.not_mem_nil, or_false] at hl
  rcases hl with h | h | h | h | h | h | h | h <;> subst h
  · exact statLine_no_nl _ _ (by decide) (fmtRat_no_nl _)
  all_goals exact statLine_no_nl _ _ (by decide) (fmtStat_no_nl _)

theorem mode_line_no_nl (m : Option ℚ) : '\n' ∉ (("Mode: ") ++ fmtMode m).data := by
  intro hm
  rw [String.data_append] at hm
  rcases List.mem_append.mp hm with hm | hm
  · exact absurd hm (by decide)
  · exact fmtMode_no_nl m hm

theorem map_mk_map_data (l : List String) :
    (l.map String.data).map String.mk = l := by
  induction l with
  | nil => rfl
  | cons a t ih =>
    simp only [List.map_cons]
    exact congrArg (List.cons a) ih

theorem fileLines_summary_content (s : Summary) (m : Option ℚ) :
    fileLines (summaryFileContent s m) =
      ("Summary statistics") :: statLines s ++ [(""), ("Mode: ") ++ fmtMode m] := by
  have hdata : (summaryFileContent s m).data =
      ("Summary statistics").data ++ '\n' ::
        ((joinLines (statLines s)).data ++ '\n' :: '\n' ::
          ((("Mode: ") ++ fmtMode m).data ++ '\n' :: ([] : List Char))) := by
    simp only [summaryFileContent, summaryToString, String.data_append,
      List.append_assoc, List.cons_append]
    rfl
  have hnlcons : ∀ t : List Char, splitNl ('\n' :: t) = [] :: splitNl t := by
    intro t
    simp [splitNl]
  have htail : splitNl ('\n' :: ((("Mode: ") ++ fmtMode m).data ++ '\n' :: ([] : List Char))) =
      [] :: (("Mode: ") ++ fmtMode m).data :: [([] : List Char)] := by
    rw [hnlcons]
    rw [splitNl_append_nl _ _ (mode_line_no_nl m)]
    rfl
  have hsplit : splitNl (summaryFileContent s m).data =
      ("Summary statistics").data ::
        ((statLines s).map String.data ++
          ([] :: (("Mode: ") ++ fmtMode m).data :: [([] : List Char)])) := by
    rw [hdata]
    rw [splitNl_append_nl _ _ (by decide)]
    rw [splitNl_joinLines_append _ _ (by simp [statLines]) (statLines_no_nl s)]
    rw [htail]
  have hshape : ("Summary statistics").data ::
        ((statLines s).map String.data ++
          ([] :: (("Mode: ") ++ fmtMode m).data :: [([] : List Char)])) =
      (("Summary statistics").data ::
        ((statLines s).map String.data ++
          [([] : List Char), (("Mode: ") ++ fmtMode m).data])) ++ [([] : List Char)] := by
    simp
  simp only [fileLines]
  rw [hsplit, hshape, List.getLast?_concat, List.dropLast_concat]
  simp only [if_pos, List.map_cons, List.map_append, map_mk_map_data]
  rfl

theorem foldr_max_mem (l : List ℕ) (h : l ≠ []) : l.foldr max 0 ∈ l := by
  induction l with
  | nil => cases h rfl
  | cons a t ih =>
    cases t with
    | nil => simp
    | cons b t2 =>
      have hmem := ih (by simp)
      rcases le_total a ((b :: t2).foldr max 0) with hle | hle
      · rw [List.foldr_cons, max_eq_right hle]
        exact List.mem_cons_of_mem a hmem
      · rw [List.foldr_cons, max_eq_left hle]
        exact List.mem_cons_self a _

theorem le_foldr_max (l : List ℕ) : ∀ x ∈ l, x ≤ l.foldr max 0 := by
  induction l with
  | nil => intro x hx; cases hx
  | cons a t ih =>
    intro x hx
    rcases List.mem_cons.mp hx with h | h
    · subst h; exact le_max_left _ _
    · exact le_trans (ih x h) (le_max_right _ _)

theorem seriesMode_cons (xs : Column) (h : dropna xs ≠ []) :
    ∃ mv rest, seriesMode xs = mv :: rest ∧ mv ∈ dropna xs ∧
      (dropna xs).count mv = maxFreq xs ∧
      (∀ w ∈ dropna xs, (dropna xs).count w ≤ (dropna xs).count mv) ∧
      (∀ w ∈ dropna xs, (dropna xs).count w = (dropna xs).count mv → mv ≤ w) := by
  have hdedup : (dropna xs).dedup ≠ [] := by
    simpa [List.dedup_eq_nil] using h
  obtain ⟨u, hu, hue⟩ : ∃ u ∈ (dropna xs).dedup, (dropna xs).count u = maxFreq xs := by
    have hne : (((dropna xs).dedup).map fun v => (dropna xs).count v) ≠ [] := by
      simpa using hdedup
    have hmem := foldr_max_mem _ hne
    rcases List.mem_map.mp hmem with ⟨u, hu2, he⟩
    exact ⟨u, hu2, he⟩
  have hufilt : u ∈ (dropna xs).dedup.filter fun v => (dropna xs).count v = maxFreq xs := by
    rw [List.mem_filter]
    exact ⟨hu, by simp [hue]⟩
  have hperm : List.Perm (seriesMode xs)
      ((dropna xs).dedup.filter fun v => (dropna xs).count v = maxFreq xs) :=
    List.perm_insertionSort _ _
  have hsorted : List.Sorted (· ≤ ·) (seriesMode xs) := List.sorted_insertionSort _ _
  have humem : u ∈ seriesMode xs := (hperm.mem_iff).mpr hufilt
  have hne2 : seriesMode xs ≠ [] := by
    intro h0
    rw [h0] at humem
    exact List.not_mem_nil u humem
  obtain ⟨mv, rest, hcons⟩ := List.exists_cons_of_ne_nil hne2
  have hmfilt : mv ∈ (dropna xs).dedup.filter fun v => (dropna xs).count v = maxFreq xs :=
    hperm.subset (hcons ▸ List.mem_cons_self mv rest)
  obtain ⟨hmdedup, hmcnt⟩ := List.mem_filter.mp hmfilt
  have hmcount : (dropna xs).count mv = maxFreq xs := by simpa using hmcnt
  have hmmem : mv ∈ dropna xs := List.mem_dedup.mp hmdedup
  refine ⟨mv, rest, hcons, hmmem, hmcount, ?_, ?_⟩
  · intro w hw
    have hwd : w ∈ (dropna xs).dedup := List.mem_dedup.mpr hw
    have hmapmem : (dropna xs).count w ∈ ((dropna xs).dedup.map fun v => (dropna xs).count v) :=
      List.mem_map.mpr ⟨w, hwd, rfl⟩
    have hle : (dropna xs).count w ≤ maxFreq xs := le_foldr_max _ _ hmapmem
    rw [hmcount]
    exact hle
  · intro w hw hweq
    have hwd : w ∈ (dropna xs).dedup := List.mem_dedup.mpr hw
    have hwfilt : w ∈ (dropna xs).dedup.filter fun v => (dropna xs).count v = maxFreq xs :=
      List.mem_filter.mpr ⟨hwd, by simp [hweq, hmcount]⟩
    have hwm : w ∈ seriesMode xs := (hperm.mem_iff).mpr hwfilt
    rw [hcons] at hwm
    rcases List.mem_cons.mp hwm with h1 | h1
    · rw [h1]
    · exact List.rel_of_sorted_cons (hcons ▸ hsorted) w h1

theorem computeMode_eq_head (xs : Column) (mv : ℚ) (rest : List ℚ)
    (hcons : seriesMode xs = mv :: rest) : computeMode xs = Except.ok (some mv) := by
  unfold computeMode
  rw [hcons]
  rfl

theorem computeMode_ok (xs : Column) : ∃ m, computeMode xs = Except.ok m := by
  rcases hs : seriesMode xs with _ | ⟨a, rest⟩
  · refine ⟨none, ?_⟩
    unfold computeMode
    rw [hs]
    rfl
  · exact ⟨some a, computeMode_eq_head xs a rest hs⟩

theorem dropna_eq_nil_iff (xs : Column) : dropna xs = [] ↔ ∀ x ∈ xs, x = none := by
  unfold dropna
  rw [List.filterMap_eq_nil_iff]
  simp [Option.isNone_iff_eq_none]

theorem dropna_length_of_no_missing (xs : Column) (h : ∀ x ∈ xs, x.isSome) :
    (dropna xs).length = xs.length := by
  induction xs with
  | nil => rfl
  | cons x t ih =>
    have hx := h x (List.mem_cons_self _ _)
    rcases x with _ | a
    · cases hx
    · simp only [dropna, List.filterMap_cons, id] at *
      rw [List.length_cons, List.length_cons]
      exact congrArg Nat.succ (ih fun y hy => h y (List.mem_cons_of_mem _ hy))

theorem analyse_dataframe_ok (df : DataFrame) (column : String) (output_dir : String)
    (fs : FileSystem) (col : Column) (m : Option ℚ)
    (hcol : getColumn df column = some col) (hm : computeMode col = Except.ok m) :
    analyse_dataframe df column output_dir fs =
      (writeFile (writeFile (writeFile (mkdirAll fs output_dir)
          (output_dir ++ ("/summary_statistics.txt")) (summaryFileContent (describe col) m))
          (output_dir ++ ("/histogram.png")) (histogramPng column))
          (output_dir ++ ("/boxplot.png")) (boxplotPng column),
       Except.ok ()) := by
  simp only [analyse_dataframe, hcol, hm]

theorem mkdirAll_dirs_self (fs : FileSystem) (d : String) :
    (mkdirAll fs d).dirs d = true := by
  simp [mkdirAll]

theorem summaryFileContent_ne_empty (s : Summary) (m : Option ℚ) :
    summaryFileContent s m ≠ ("") := by
  intro h
  have hd := congrArg String.data h
  rw [summaryFileContent] at hd
  simp only [String.data_append] at hd
  simp at hd

theorem histogramPng_ne_empty (column : String) : histogramPng column ≠ ("") := by
  intro h
  have hd := congrArg String.data h
  rw [histogramPng] at hd
  simp only [String.data_append] at hd
  simp at hd

theorem boxplotPng_ne_empty (column : String) : boxplotPng column ≠ ("") := by
  intro h
  have hd := congrArg String.data h
  rw [boxplotPng] at hd
  simp only [String.data_append] at hd
  simp at hd

/-! ### The claims -/

/-- C1 (counterexample): the claim says that when two values occur with the
same maximal frequency the value that occurs first in the column's order is
selected.  On the column `[2, 1]` both values occur once; the
first-encountered value is `2`, but the script's mode (the head of pandas'
sorted mode series) is `1`, which differs from `2` since `1 < 2`. -/
theorem mode_tiebreak_counterexample :
    computeMode [some (2:ℚ), some 1] = Except.ok (some 1) ∧
    firstEncounteredMode [some (2:ℚ), some 1] = some 2 ∧
    (1:ℚ) < 2 := by
  refine ⟨by decide, by decide, by norm_num⟩

/-- C1 (amended): for every column with at least one non-missing value, the
mode computed by `analyse_dataframe` is a most frequent non-missing value;
when two or more values occur with the same maximal frequency, the smallest
such value is selected (pandas sorts the tied modes ascending), so a value
occurring strictly more often than any other is the mode regardless of input
order. -/
theorem mode_smallest_most_frequent (xs : Column) (h : dropna xs ≠ []) :
    ∃ mv, computeMode xs = Except.ok (some mv) ∧ mv ∈ dropna xs ∧
      (∀ w ∈ dropna xs, (dropna xs).count w ≤ (dropna xs).count mv) ∧
      (∀ w ∈ dropna xs, (dropna xs).count w = (dropna xs).count mv → mv ≤ w) ∧
      (∀ v ∈ dropna xs,
        (∀ w ∈ dropna xs, w ≠ v → (dropna xs).count w < (dropna xs).count v) →
        computeMode xs = Except.ok (some v)) := by
  obtain ⟨mv, rest, hcons, hmem, hcnt, hmax, hmin⟩ := seriesMode_cons xs h
  have hmode := computeMode_eq_head xs mv rest hcons
  refine ⟨mv, hmode, hmem, hmax, hmin, ?_⟩
  intro v hv hstrict
  rcases eq_or_ne mv v with he | he
  · rw [he] at hmode
    exact hmode
  · have h1 := hstrict mv hmem he
    have h2 := hmax v hv
    omega

/-- Witness for the amended C1 at the column `[3, 3, 1]`. -/
theorem mode_smallest_most_frequent_witness :
    dropna [some (3:ℚ), some 3, some 1] ≠ [] ∧
    ∃ mv, computeMode [some (3:ℚ), some 3, some 1] = Except.ok (some mv) ∧
      mv ∈ dropna [some (3:ℚ), some 3, some 1] ∧
      (∀ w ∈ dropna [some (3:ℚ), some 3, some 1],
        (dropna [some (3:ℚ), some 3, some 1]).count w ≤
          (dropna [some (3:ℚ), some 3, some 1]).count mv) ∧
      (∀ w ∈ dropna [some (3:ℚ), some 3, some 1],
        (dropna [some (3:ℚ), some 3, some 1]).count w =
          (dropna [some (3:ℚ), some 3, some 1]).count mv → mv ≤ w) ∧
      (∀ v ∈ dropna [some (3:ℚ), some 3, some 1],
        (∀ w ∈ dropna [some (3:ℚ), some 3, some 1], w ≠ v →
          (dropna [some (3:ℚ), some 3, some 1]).count w <
            (dropna [some (3:ℚ), some 3, some 1]).count v) →
        computeMode [some (3:ℚ), some 3, some 1] = Except.ok (some v)) :=
  ⟨by decide, mode_smallest_most_frequent _ (by decide)⟩

/-- C2: the script passes its `sheet_name` argument straight to
`pd.read_excel`, whose `sheet_name=None` means "every sheet".  On a two-sheet
spreadsheet, calling the loader with the sheet unspecified therefore returns
the mapping of all sheets rather than a single table of the default sheet
(contradicting the function's own `-> pd.DataFrame` annotation and docstring),
while naming the second sheet does return exactly that sheet's table. -/
theorem load_sheet_none_returns_all_sheets :
    load_dataframe twoSheetFile none =
      Except.ok (LoadResult.allSheets
        [(("Sheet1"), [(("a"), [some 1])]), (("Sheet2"), [(("b"), [some 2])])]) ∧
    load_dataframe twoSheetFile (some ("Sheet2")) =
      Except.ok (LoadResult.single [(("b"), [some 2])]) :=
  ⟨rfl, rfl⟩

/-- C3: for every table and every column name absent from the table's column
set, `analyse_dataframe` fails with the ColumnNotFound kind of error
(`KeyError` on the column) and the file contents at every path are unchanged:
none of the three artifact files is written. -/
theorem absent_column_fails_without_artifacts (df : DataFrame) (column : String)
    (output_dir : String) (fs : FileSystem) (h : getColumn df column = none) :
    (analyse_dataframe df column output_dir fs).2 =
      Except.error (AnalysisError.keyError column) ∧
    (analyse_dataframe df column output_dir fs).1.files = fs.files := by
  simp [analyse_dataframe, h, mkdirAll]

/-- Witness for C3: a one-column table analysed at a missing column name. -/
theorem absent_column_fails_without_artifacts_witness :
    getColumn [(("a"), [some (1:ℚ)])] ("b") = none ∧
    ((analyse_dataframe [(("a"), [some (1:ℚ)])] ("b") ("out") emptyFS).2 =
       Except.error (AnalysisError.keyError ("b")) ∧
     (analyse_dataframe [(("a"), [some (1:ℚ)])] ("b") ("out") emptyFS).1.files =
       emptyFS.files) :=
  ⟨by decide, absent_column_fails_without_artifacts _ _ _ _ (by decide)⟩

/-- C4: for every column that is empty or entirely missing, the mode computed
by `analyse_dataframe` is `None`, and the mode-computation code path never
raises: the emptiness guard makes `computeMode` total (`Except.ok` always). -/
theorem mode_of_empty_column (xs : Column) :
    (∃ m, computeMode xs = Except.ok m) ∧
    ((∀ x ∈ xs, x = none) → computeMode xs = Except.ok none) := by
  refine ⟨computeMode_ok xs, fun h => ?_⟩
  have hd : dropna xs = [] := (dropna_eq_nil_iff xs).mpr h
  unfold computeMode seriesMode
  rw [hd]
  rfl

/-- Witness for C4 at the entirely-missing one-cell column. -/
theorem mode_of_empty_column_witness :
    (∀ x ∈ [(none : Cell)], x = none) ∧
      computeMode [(none : Cell)] = Except.ok none :=
  ⟨by decide, (mode_of_empty_column [(none : Cell)]).2 (by decide)⟩

/-- C5: for every summary and mode, the text artifact written by
`analyse_dataframe` consists of exactly: the literal first line
`Summary statistics`, the eight label/value statistic lines in the order
count, mean, std, min, 25%, 50%, 75%, max, a blank line, and the final line
`Mode: {value}`. -/
theorem summary_text_shape (s : Summary) (m : Option ℚ) :
    fileLines (summaryFileContent s m) =
      [("Summary statistics"),
       statLine ("count") (fmtRat (s.count : ℚ)),
       statLine ("mean") (fmtStat s.mean),
       statLine ("std") (fmtStat s.std),
       statLine ("min") (fmtStat s.min),
       statLine ("25%") (fmtStat s.q25),
       statLine ("50%") (fmtStat s.q50),
       statLine ("75%") (fmtStat s.q75),
       statLine ("max") (fmtStat s.max),
       (""),
       ("Mode: ") ++ fmtMode m] := by
  rw [fileLines_summary_content]
  rfl

/-- C6: for every successful run of `analyse_dataframe` (the column exists),
the outcome is success, the output directory exists afterwards, and the file
contents after the call are exactly those before with the three artifacts at
the stable paths `{outputDir}/summary_statistics.txt`,
`{outputDir}/histogram.png` and `{outputDir}/boxplot.png` written (each
non-empty, overwriting whatever was at those names, every other path
untouched). -/
theorem three_artifacts_written (df : DataFrame) (column : String)
    (output_dir : String) (fs : FileSystem) (col : Column)
    (hcol : getColumn df column = some col) :
    ∃ m, computeMode col = Except.ok m ∧
      (analyse_dataframe df column output_dir fs).2 = Except.ok () ∧
      (analyse_dataframe df column output_dir fs).1.dirs output_dir = true ∧
      (∀ p, (analyse_dataframe df column output_dir fs).1.files p =
        if p = output_dir ++ ("/boxplot.png") then some (boxplotPng column)
        else if p = output_dir ++ ("/histogram.png") then some (histogramPng column)
        else if p = output_dir ++ ("/summary_statistics.txt") then
          some (summaryFileContent (describe col) m)
        else fs.files p) ∧
      summaryFileContent (describe col) m ≠ ("") ∧
      histogramPng column ≠ ("") ∧ boxplotPng column ≠ ("") := by
  obtain ⟨m, hm⟩ := computeMode_ok col
  refine ⟨m, hm, ?_, ?_, ?_, summaryFileContent_ne_empty _ _,
    histogramPng_ne_empty _, boxplotPng_ne_empty _⟩
  · rw [analyse_dataframe_ok df column output_dir fs col m hcol hm]
  · rw [analyse_dataframe_ok df column output_dir fs col m hcol hm]
    simp [writeFile, mkdirAll]
  · intro p
    rw [analyse_dataframe_ok df column output_dir fs col m hcol hm]
    simp only [writeFile, mkdirAll]

/-- Witness for C6: analysing column `b` of a one-column table. -/
theorem three_artifacts_written_witness :
    getColumn [(("b"), [some (1:ℚ)])] ("b") = some [some 1] ∧
    ∃ m, computeMode [some (1:ℚ)] = Except.ok m ∧
      (analyse_dataframe [(("b"), [some (1:ℚ)])] ("b") ("out") emptyFS).2 =
        Except.ok () ∧
      (analyse_dataframe [(("b"), [some (1:ℚ)])] ("b") ("out") emptyFS).1.dirs
        ("out") = true ∧
      (∀ p, (analyse_dataframe [(("b"), [some (1:ℚ)])] ("b") ("out")
          emptyFS).1.files p =
        if p = ("out") ++ ("/boxplot.png") then some (boxplotPng ("b"))
        else if p = ("out") ++ ("/histogram.png") then some (histogramPng ("b"))
        else if p = ("out") ++ ("/summary_statistics.txt") then
          some (summaryFileContent (describe [some (1:ℚ)]) m)
        else emptyFS.files p) ∧
      summaryFileContent (describe [some (1:ℚ)]) m ≠ ("") ∧
      histogramPng ("b") ≠ ("") ∧ boxplotPng ("b") ≠ ("") :=
  ⟨by decide, three_artifacts_written _ _ _ _ _ (by decide)⟩

/-- C7: the statistical measures are computed over the non-missing values
only: the summary is invariant under any change that preserves the sequence
of non-missing values, and for a column of N values with no missing entries
the count equals N. -/
theorem stats_ignore_missing (xs : Column) :
    ((∀ x ∈ xs, x.isSome) → (describe xs).count = xs.length) ∧
    (∀ ys : Column, dropna xs = dropna ys → describe xs = describe ys) := by
  constructor
  · intro h
    exact dropna_length_of_no_missing xs h
  · intro ys hd
    unfold describe
    rw [hd]

/-- Witness for C7 at a two-value column with no missing entries. -/
theorem stats_ignore_missing_witness :
    (∀ x ∈ [some (1:ℚ), some 2], x.isSome) ∧
      (describe [some (1:ℚ), some 2]).count = 2 :=
  ⟨by decide, (stats_ignore_missing _).1 (by decide)⟩

/-- C8: on the input column `[1,2,3,4,5]` the summary has mean 3.0, min 1,
max 5 and count 5. -/
theorem summary_of_one_to_five :
    (describe [some 1, some 2, some 3, some 4, some 5]).mean = some 3 ∧
    (describe [some 1, some 2, some 3, some 4, some 5]).min = some 1 ∧
    (describe [some 1, some 2, some 3, some 4, some 5]).max = some 5 ∧
    (describe [some 1, some 2, some 3, some 4, some 5]).count = 5 := by
  refine ⟨?_, ?_, ?_, ?_⟩ <;>
    norm_num [describe, describeVals, sampleMean, dropna, List.filterMap_cons,
      List.min?, List.max?]

/-- C9: `analyse_dataframe` creates the output directory (line 66) before
validating the column name (line 68), so after a failed call on an absent
column the output directory exists even though no artifact file was
written. -/
theorem output_dir_created_despite_failure (df : DataFrame) (column : String)
    (output_dir : String) (fs : FileSystem) (h : getColumn df column = none) :
    (analyse_dataframe df column output_dir fs).1.dirs output_dir = true ∧
    (analyse_dataframe df column output_dir fs).2 =
      Except.error (AnalysisError.keyError column) ∧
    (analyse_dataframe df column output_dir fs).1.files = fs.files := by
  simp [analyse_dataframe, h, mkdirAll]

/-- Witness for C9: the absent column `c`, starting from the empty file
system, in which the output directory did not exist before the call. -/
theorem output_dir_created_despite_failure_witness :
    getColumn [(("a"), [some (1:ℚ)])] ("c") = none ∧
    ((analyse_dataframe [(("a"), [some (1:ℚ)])] ("c") ("results") emptyFS).1.dirs
        ("results") = true ∧
     (analyse_dataframe [(("a"), [some (1:ℚ)])] ("c") ("results") emptyFS).2 =
       Except.error (AnalysisError.keyError ("c")) ∧
     (analyse_dataframe [(("a"), [some (1:ℚ)])] ("c") ("results") emptyFS).1.files =
       emptyFS.files) :=
  ⟨by decide, output_dir_created_despite_failure _ _ _ _ (by decide)⟩

/-- C10: for every path whose extension does not indicate a spreadsheet
format, `load_dataframe` never consults the sheet argument: any two sheet
values give the same result. -/
theorem load_ignores_sheet_for_non_spreadsheet (file : DataFile)
    (s1 s2 : Option String)
    (h : ¬(strLower file.suffix = (".xls") ∨ strLower file.suffix = (".xlsx"))) :
    load_dataframe file s1 = load_dataframe file s2 := by
  unfold load_dataframe
  rw [if_neg h, if_neg h]

/-- Witness for C10: a `.csv` file loaded with and without a sheet name. -/
theorem load_ignores_sheet_witness :
    ¬(strLower csvFile.suffix = (".xls") ∨ strLower csvFile.suffix = (".xlsx")) ∧
    load_dataframe csvFile (some ("Sheet2")) = load_dataframe csvFile none :=
  ⟨by decide, load_ignores_sheet_for_non_spreadsheet _ _ _ (by decide)⟩

end DriveAnalysis
